import Mathlib

/-!
Verification of the xueqiu_api client library core: envelope-error checking
and normalization (`src/xueqiu/client.py:_raise_for_api_error`,
`src/xueqiu/models.py:XueqiuResponse`), the retrying transport driver
(`XueqiuClient.request_json`), the auth/host policy (`_should_send_auth`,
`_is_xueqiu_host`), the timestamp normalizer (`src/xueqiu/parsing.py:
parse_datetime`) and the metric-pair extractor (`src/xueqiu/api/finance.py`).

Decoded JSON values are modelled by the inductive `JsonValue`; Python dicts
become association lists with unique keys; Python floats and ints are both
modelled as rationals; a Python function that can raise returns `Option` or
`Except`.
-/

/-- A decoded JSON value, as produced by `resp.json()` in Python: `None`,
booleans, numbers (int and float collapsed to one rational-valued
constructor), strings, lists and string-keyed dicts. -/
inductive JsonValue where
  | null : JsonValue
  | bool : Bool → JsonValue
  | num : ℚ → JsonValue
  | str : String → JsonValue
  | arr : List JsonValue → JsonValue
  | obj : List (String × JsonValue) → JsonValue

/-- Python `payload.get(key)` restricted to presence: `some v` when the dict
has the key, `none` when it is missing. -/
def objLookup (kvs : List (String × JsonValue)) (k : String) : Option JsonValue :=
  kvs.lookup k

/-- Python `key in payload`. -/
def objHas (kvs : List (String × JsonValue)) (k : String) : Bool :=
  (objLookup kvs k).isSome

/-- Python `payload.get(key)`: the value when present, `None` when missing. -/
def objGet (kvs : List (String × JsonValue)) (k : String) : JsonValue :=
  (objLookup kvs k).getD .null

/-- Python truthiness of a decoded JSON value: `None`, `False`, zero, and
empty strings/lists/dicts are falsy. -/
def pyTruthy : JsonValue → Bool
  | .null => false
  | .bool b => b
  | .num q => !(q == 0)
  | .str s => !(s == "")
  | .arr l => !l.isEmpty
  | .obj kvs => !kvs.isEmpty

/-- Python `a or b` on decoded JSON values. -/
def pyOr (a b : JsonValue) : JsonValue :=
  if pyTruthy a then a else b

/-- Python `s.strip()` (ASCII whitespace): drop leading and trailing
whitespace.  Implemented over the character list so that the kernel can
evaluate it. -/
def pyStrip (s : String) : String :=
  ⟨((s.data.dropWhile Char.isWhitespace).reverse.dropWhile Char.isWhitespace).reverse⟩

/-- Python `s.lower()` (ASCII fragment). -/
def pyLower (s : String) : String :=
  ⟨s.data.map Char.toLower⟩

/-- Python `int(s)` on a string: strip whitespace, then an optional sign
followed by one or more decimal digits; anything else raises `ValueError`
(`none`).  (Underscore separators and non-ASCII digits are not modelled;
no claim exercises them.) -/
def parseIntLit (s : String) : Option Int :=
  let t := pyStrip s
  let digitsVal : List Char → Option Int := fun cs =>
    if cs.isEmpty || !cs.all Char.isDigit then none
    else some (cs.foldl (fun a c => a * 10 + (c.toNat - 48 : Int)) 0)
  match t.data with
  | '+' :: rest => digitsVal rest
  | '-' :: rest => (digitsVal rest).map Neg.neg
  | rest => digitsVal rest

/-- Python `int(f)` on a float: truncation toward zero (the rational is
stored in lowest terms, so T-division of numerator by denominator is
exactly Python's truncation). -/
def ratTrunc (q : ℚ) : Int :=
  Int.tdiv q.num (q.den : Int)

/-- Python `int(value)` on a decoded JSON value: `none` models the raised
`TypeError`/`ValueError`. -/
def pyInt : JsonValue → Option Int
  | .null => none
  | .bool b => some (if b then 1 else 0)
  | .num q => some (ratTrunc q)
  | .str s => parseIntLit s
  | .arr _ => none
  | .obj _ => none

/-- Model of `XueqiuAPIError` from `src/xueqiu/errors.py`: envelope-level failure.
`error_description` keeps the raw JSON value handed to the constructor
(the Python field is typed `Any`); `.null` stands for Python `None`. -/
structure APIErr where
  error_code : Int
  error_description : JsonValue
  url : String
  payload : JsonValue
  method : Option String

/-- Model of `_raise_for_api_error` from `src/xueqiu/client.py` (lines 70-107).
`some e` models raising `XueqiuAPIError e`; `none` models returning
normally.  Style A (`error_code`) is checked first; a coercion failure on
`int(payload.get("error_code") or 0)` is swallowed by the bare `except`
and the function returns.  Style B fires only on an identity-`True` /
identity-`False` value of the `success` key. -/
def raiseForApiError (payload : JsonValue) (url : String) (method : Option String) :
    Option APIErr :=
  match payload with
  | .obj kvs =>
    if objHas kvs "error_code" then
      match pyInt (pyOr (objGet kvs "error_code") (.num 0)) with
      | none => none
      | some ec =>
        if ec = 0 then none
        else some ⟨ec, objGet kvs "error_description", url, .obj kvs, method⟩
    else if objHas kvs "success" then
      match objGet kvs "success" with
      | .bool true => none
      | .bool false =>
        let ec := (pyInt (pyOr (objGet kvs "code") (.num 0))).getD 0
        some ⟨ec, objGet kvs "message", url, .obj kvs, method⟩
      | _ => none
    else none
  | _ => none

/-- Model of `XueqiuResponse._wrap_raw_payload` from `src/xueqiu/models.py` (lines
29-41): a non-dict decoded value, or a dict carrying none of the envelope
keys `data`, `error_code`, `code`, `success`, is wrapped into
`{"data": value, "error_code": 0, "error_description": None}`; any other
dict is returned unchanged. -/
def wrapRawPayload (data : JsonValue) : JsonValue :=
  match data with
  | .obj kvs =>
    if objHas kvs "data" || objHas kvs "error_code" || objHas kvs "code" || objHas kvs "success"
    then .obj kvs
    else .obj [("data", .obj kvs), ("error_code", .num 0), ("error_description", .null)]
  | d => .obj [("data", d), ("error_code", .num 0), ("error_description", .null)]

/-- The validated fields of `XueqiuResponse` (`src/xueqiu/models.py`):
`data` (generic payload, `.null` when absent), `error_code : int` with
alias order `error_code`, `code` and default `0`, `error_description :
str | None` with alias order `error_description`, `message`, and
`success : bool | None`. -/
structure NormalizedEnvelope where
  data : JsonValue
  error_code : Int
  error_description : Option String
  success : Option Bool

/-- Pydantic lax coercion to `int` for the `error_code` field: integers
pass, floats must be integral, numeric strings are parsed; everything else
is a validation error (`none`). -/
def pydInt (v : JsonValue) : Option Int :=
  match v with
  | .num q => if q.den = 1 then some q.num else none
  | .str s => parseIntLit s
  | _ => none

/-- Pydantic coercion to `str | None`: `None` and strings pass, anything
else is a validation error. -/
def pydOptStr : JsonValue → Option (Option String)
  | .null => some none
  | .str s => some (some s)
  | _ => none

/-- Pydantic lax coercion to `bool | None`: `None` and booleans pass;
the documented lax string and 0/1 numeric forms are accepted; anything
else is a validation error. -/
def pydOptBool : JsonValue → Option (Option Bool)
  | .null => some none
  | .bool b => some (some b)
  | .num q => if q == 0 then some (some false) else if q == 1 then some (some true) else none
  | .str s =>
    let t := pyLower s
    if ["1", "on", "t", "true", "y", "yes"].contains t then some (some true)
    else if ["0", "off", "f", "false", "n", "no"].contains t then some (some false)
    else none
  | _ => none

/-- Validation of a decoded JSON value as a `XueqiuResponse`
(`src/xueqiu/models.py`, lines 10-51): first `_wrap_raw_payload`, then
alias-resolved field extraction with defaults `error_code = 0`,
`error_description = None`, `success = None`.  `none` models a pydantic
`ValidationError`. -/
def validateXueqiuResponse (v : JsonValue) : Option NormalizedEnvelope :=
  match wrapRawPayload v with
  | .obj kvs =>
    let ec : Option Int :=
      match objLookup kvs "error_code" with
      | some w => pydInt w
      | none =>
        match objLookup kvs "code" with
        | some w => pydInt w
        | none => some 0
    let ed : Option (Option String) :=
      match objLookup kvs "error_description" with
      | some w => pydOptStr w
      | none =>
        match objLookup kvs "message" with
        | some w => pydOptStr w
        | none => some none
    let su : Option (Option Bool) :=
      match objLookup kvs "success" with
      | some w => pydOptBool w
      | none => some none
    match ec, ed, su with
    | some ec, some ed, some su => some ⟨objGet kvs "data", ec, ed, su⟩
    | _, _, _ => none
  | _ => none

/-- Model of `XueqiuResponse.is_success` (`src/xueqiu/models.py`, lines 43-50):
an explicit `success` boolean wins; otherwise `error_code == 0`. -/
def NormalizedEnvelope.is_success (r : NormalizedEnvelope) : Bool :=
  match r.success with
  | some true => true
  | some false => false
  | none => r.error_code == 0

/-- Unsigned decimal literal `digits[.digits]`, at least one digit overall
(matches Python float syntax for the mantissa: `1.`, `.5`, `1.5`, `15`). -/
def parseUnsignedMantissa (cs : List Char) : Option ℚ :=
  let intPart := cs.takeWhile Char.isDigit
  let rest := cs.dropWhile Char.isDigit
  let intVal : ℚ := (intPart.foldl (fun a c => a * 10 + (c.toNat - 48)) 0 : Nat)
  match rest with
  | [] => if intPart.isEmpty then none else some intVal
  | '.' :: frac =>
    if frac.all Char.isDigit && !(intPart.isEmpty && frac.isEmpty) then
      some (intVal + ((frac.foldl (fun a c => a * 10 + (c.toNat - 48)) 0 : Nat) : ℚ)
            / ((10 : ℚ) ^ frac.length))
    else none
  | _ => none

/-- Signless part of a Python float literal: mantissa with optional
exponent `e`/`E` part (`inf` and `nan` forms are not modelled; no claim
exercises them). -/
def parseMantissaExp (cs : List Char) : Option ℚ :=
  match cs.splitOn 'e' with
  | [m] => parseUnsignedMantissa m
  | [m, ex] =>
    match parseUnsignedMantissa m, parseIntLit (String.mk ex) with
    | some mv, some ev =>
      some (if 0 ≤ ev then mv * (10 : ℚ) ^ ev.toNat else mv / (10 : ℚ) ^ (-ev).toNat)
    | _, _ => none
  | _ => none

/-- Python `float(s)` on a string: strip whitespace, optional sign, then a
decimal mantissa with optional exponent; `none` models the raised
`ValueError`. -/
def parseFloatLit (s : String) : Option ℚ :=
  let t := (pyLower (pyStrip s)).data
  match t with
  | '+' :: rest => parseMantissaExp rest
  | '-' :: rest => (parseMantissaExp rest).map Neg.neg
  | rest => parseMantissaExp rest

/-- Model of `_parse_retry_after_seconds` from `src/xueqiu/client.py` (lines
109-116): a missing or empty header yields `none`; otherwise the value is
parsed as a float (`ValueError` yields `none`) and clamped below at 0. -/
def parseRetryAfterSeconds (value : Option String) : Option ℚ :=
  match value with
  | none => none
  | some v => if v = "" then none else (parseFloatLit v).map (fun s => max 0 s)

/-- Model of `_backoff_seconds` from `src/xueqiu/client.py` (lines 119-121):
`min(0.2 * 2**attempt, 4.0)`. -/
def backoffSeconds (attempt : Nat) : ℚ :=
  min ((1 / 5) * 2 ^ attempt) 4

/-- The sleep chosen before a retry of a retryable HTTP status
(`request_json`, lines 290-294): the parsed `Retry-After` header when
available, else exponential backoff. -/
def sleepDuration (retryAfter : Option String) (attempt : Nat) : ℚ :=
  match parseRetryAfterSeconds retryAfter with
  | some s => s
  | none => backoffSeconds attempt

/-- Model of `resp.text[:2000] if resp.text else None`: the response body truncated
to its first 2000 characters, or `None` for an empty body. -/
def truncBody (b : String) : Option String :=
  if b = "" then none else some ⟨b.data.take 2000⟩

/-- One HTTP exchange as seen by the retry loop: status code, optional
`Retry-After` header, body text, and the decoded JSON (`none` models
`resp.json()` raising `JSONDecodeError`). -/
structure HttpResp where
  status : Nat
  retryAfter : Option String
  bodyText : String
  json : Option JsonValue

/-- What one attempt of the loop body observes: either an HTTP response or
an `httpx.TransportError` raised by the transport. -/
inductive AttemptResult where
  | success (resp : HttpResp)
  | transportError

/-- The observable outcome of `request_json`: the returned payload or the
exception that escapes the loop. -/
inductive Outcome where
  | ok (payload : JsonValue)
  | apiError (e : APIErr)
  | httpError (status : Nat) (url : String) (method : String) (text : Option String)
  | decodeError (url : String) (method : String) (text : Option String)
  | transportError
  | authError

/-- The retry loop of `XueqiuClient.request_json` (`src/xueqiu/client.py`,
lines 260-342), one logical call.  `env i` is what attempt `i` observes;
`url` is the resolved request URL (the same every attempt).  Returns the
outcome together with the list of sleeps performed, in order.  `fuel`
starts at `maxRetries + 1` (the Python `for attempt in range(...)` bound);
the fuel-0 branch mirrors the "should be unreachable" fall-through after
the loop.
  - status >= 400: retry when the status is 429 or >= 500 and attempts
    remain, sleeping `sleepDuration`; otherwise raise `XueqiuHTTPError`
    with the status, URL, method and truncated body;
  - `resp.json()` failure: `XueqiuDecodeError`, caught by the
    `except (TransportError, XueqiuDecodeError)` handler: re-raised once
    the budget is exhausted, else retried after a plain backoff sleep;
  - transport errors: same handler, same backoff;
  - on a decoded payload: `_raise_for_api_error` when `check_api_error`,
    then return the payload. -/
def requestJsonGo (env : Nat → AttemptResult) (url method : String) (checkApi : Bool)
    (maxRetries : Nat) : Nat → Nat → Outcome × List ℚ
  | _, 0 => (.transportError, [])
  | attempt, fuel + 1 =>
    match env attempt with
    | .transportError =>
      if maxRetries ≤ attempt then (.transportError, [])
      else
        let r := requestJsonGo env url method checkApi maxRetries (attempt + 1) fuel
        (r.1, backoffSeconds attempt :: r.2)
    | .success resp =>
      if 400 ≤ resp.status then
        if (resp.status = 429 ∨ 500 ≤ resp.status) ∧ attempt < maxRetries then
          let r := requestJsonGo env url method checkApi maxRetries (attempt + 1) fuel
          (r.1, sleepDuration resp.retryAfter attempt :: r.2)
        else (.httpError resp.status url method (truncBody resp.bodyText), [])
      else
        match resp.json with
        | none =>
          if maxRetries ≤ attempt then (.decodeError url method (truncBody resp.bodyText), [])
          else
            let r := requestJsonGo env url method checkApi maxRetries (attempt + 1) fuel
            (r.1, backoffSeconds attempt :: r.2)
        | some payload =>
          if checkApi then
            match raiseForApiError payload url (some method) with
            | some e => (.apiError e, [])
            | none => (.ok payload, [])
          else (.ok payload, [])

/-- Model of `XueqiuClient.request_json` (lines 247-342): the `require_auth`
precondition check, then the retry loop with attempt budget
`maxRetries + 1`. -/
def requestJson (env : Nat → AttemptResult) (url method : String) (checkApi : Bool)
    (requireAuth hasAuth : Bool) (maxRetries : Nat) : Outcome × List ℚ :=
  if requireAuth && !hasAuth then (.authError, [])
  else requestJsonGo env url method checkApi maxRetries 0 (maxRetries + 1)

/-- An environment in which every attempt yields an HTTP response, built
from per-attempt status, `Retry-After` header, body and decoded JSON. -/
def mkEnv (st : Nat → Nat) (ra : Nat → Option String) (bd : Nat → String)
    (js : Nat → Option JsonValue) : Nat → AttemptResult :=
  fun i => .success ⟨st i, ra i, bd i, js i⟩

/-- The `max_retries` default of `XueqiuClient.__init__`
(`src/xueqiu/client.py`, line 176). -/
def defaultMaxRetries : Nat := 2

/-- Model of `_is_xueqiu_host` from `src/xueqiu/client.py` (lines 124-126): the host,
stripped and lowercased, is the root domain `xueqiu.com` or a subdomain of
it. -/
def isXueqiuHost (host : String) : Bool :=
  let h := pyLower (pyStrip host)
  h == "xueqiu.com" || ".xueqiu.com".data.isSuffixOf h.data

/-- The `_auth_hosts` set built in `XueqiuClient.__init__` (lines 204-205):
the base URL's host, stripped and lowercased, when nonempty. -/
def mkAuthHosts (baseHost : Option String) : List String :=
  let h := pyLower (pyStrip (baseHost.getD ""))
  if h = "" then [] else [h]

/-- Model of `XueqiuClient._should_send_auth` (lines 241-245): a URL with no host
component always gets auth; otherwise the normalized host must be in
`_auth_hosts` or be a xueqiu.com host. -/
def shouldSendAuth (authHosts : List String) (urlHost : Option String) : Bool :=
  let host := pyLower (pyStrip (urlHost.getD ""))
  if host = "" then true
  else authHosts.contains host || isXueqiuHost host

/-- The credential attachment of `request_json` (lines 267-273): when
`_should_send_auth` holds, a truthy cookie string becomes the `Cookie`
header; otherwise a truthy cookie jar is passed as request cookies; a
denied host gets neither. -/
def attachCredential (cookie : Option String) (jar : Option (List (String × String)))
    (authHosts : List String) (urlHost : Option String) :
    Option String × Option (List (String × String)) :=
  if shouldSendAuth authHosts urlHost then
    if (cookie.getD "") ≠ "" then (cookie, none)
    else if !(jar.getD []).isEmpty then (none, jar)
    else (none, none)
  else (none, none)

/-- Python `date(y, m, d).toordinal()`-style day count: the proleptic Gregorian
ordinal of the first day of year `y` (ordinal of 0001-01-01 is 1). -/
def daysBeforeYear (y : Nat) : Nat :=
  (y - 1) * 365 + (y - 1) / 4 - (y - 1) / 100 + (y - 1) / 400

/-- Gregorian leap-year test. -/
def isLeapYear (y : Nat) : Bool :=
  (y % 4 == 0 && y % 100 != 0) || y % 400 == 0

/-- Days in month `m` (1-12) of year `y`. -/
def daysInMonth (y m : Nat) : Nat :=
  if m = 2 then (if isLeapYear y then 29 else 28)
  else if m = 4 ∨ m = 6 ∨ m = 9 ∨ m = 11 then 30
  else 31

/-- Days of year `y` that precede the first day of month `m`. -/
def daysBeforeMonth (y m : Nat) : Nat :=
  (List.range (m - 1)).foldl (fun a i => a + daysInMonth y (i + 1)) 0

/-- Proleptic Gregorian ordinal of the date `y-m-d` (0001-01-01 ↦ 1),
Python's `date.toordinal`. -/
def toOrdinal (y m d : Nat) : Nat :=
  daysBeforeYear y + daysBeforeMonth y m + d

/-- Unix seconds of midnight UTC on the Gregorian date `y-m-d`
(1970-01-01 has ordinal 719163). -/
def civilToUnix (y m d : Nat) : Int :=
  ((toOrdinal y m d : Int) - 719163) * 86400

/-- Model of `datetime.fromtimestamp(ts, tz=timezone.utc)`: the instant is returned
(modelled by its Unix seconds) when it lies in the range representable by
`datetime` (years 1 through 9999); outside it Python raises
(`OverflowError`/`ValueError`), modelled as `.error ()`.  Sub-microsecond
rounding is not modelled; every claim input is an exact microsecond. -/
def fromtimestampUtc (ts : ℚ) : Except Unit ℚ :=
  if (civilToUnix 1 1 1 : ℚ) ≤ ts ∧ ts < (civilToUnix 10000 1 1 : ℚ) then .ok ts
  else .error ()

/-- The numeric branch of `parse_datetime` (`src/xueqiu/parsing.py`, lines
19-24): `ts = float(value)`, the milliseconds heuristic
`if ts > 10_000_000_000: ts /= 1000.0`, then
`datetime.fromtimestamp(ts, tz=timezone.utc)`. -/
def parseDatetimeNum (q : ℚ) : Except Unit ℚ :=
  fromtimestampUtc (if q > 10000000000 then q / 1000 else q)

/-- A Python `datetime` as handed around by `parse_datetime`:
`utcSeconds` is the Unix instant obtained when the datetime's fields are
read as UTC — for an aware datetime this is its instant, and for a naive
one it is exactly what `value.replace(tzinfo=timezone.utc)` denotes. -/
structure PyDatetime where
  utcSeconds : ℚ
  aware : Bool

/-- The inputs `parse_datetime` accepts: `None`, a `datetime`, an
int/float, a string, or any other object. -/
inductive PyTimeInput where
  | none
  | dtime (d : PyDatetime)
  | num (q : ℚ)
  | str (s : String)
  | other

/-- Python `s.isdigit()` (ASCII fragment): nonempty and all decimal
digits. -/
def pyIsAllDigits (s : String) : Bool :=
  !(s == "") && s.data.all Char.isDigit

/-- The numeric value of an all-digits string, Python `int(s)`. -/
def digitsToNat (s : String) : Nat :=
  s.data.foldl (fun a c => a * 10 + (c.toNat - 48)) 0

/-- Python `s.replace("Z", "+00:00")`: every occurrence of the one-character
pattern `Z` is replaced. -/
def replaceZ (s : String) : String :=
  ⟨s.data.flatMap fun c => if c = 'Z' then "+00:00".data else [c]⟩

/-- Model of `parse_datetime` from `src/xueqiu/parsing.py` (lines 7-40).
`iso` is the oracle for `datetime.fromisoformat` (`none` models the
`ValueError` that the function catches).  `.error ()` models an uncaught
exception; `.ok none` models returning Python `None`.
  - `None` → `None`; a datetime is returned as-is when aware, else
    re-tagged as UTC — with the `PyDatetime` representation both give
    `utcSeconds`;
  - int/float → the numeric branch `parseDatetimeNum`;
  - a string is stripped; empty → `None`; all digits → `int(s)` and the
    numeric branch (the recursive call `parse_datetime(int(s))` lands in
    the `isinstance(value, (int, float))` arm); otherwise
    `fromisoformat(s.replace("Z", "+00:00"))`, `ValueError` → `None`,
    and a naive result re-tagged as UTC;
  - any other input → `None`. -/
def parseDatetime (iso : String → Option PyDatetime) : PyTimeInput → Except Unit (Option ℚ)
  | .none => .ok Option.none
  | .dtime d => .ok (some d.utcSeconds)
  | .num q => (parseDatetimeNum q).map some
  | .str s =>
    let t := pyStrip s
    if t = "" then .ok Option.none
    else if pyIsAllDigits t then (parseDatetimeNum ((digitsToNat t : Nat) : ℚ)).map some
    else
      match iso (replaceZ t) with
      | Option.none => .ok Option.none
      | some d => .ok (some d.utcSeconds)
  | .other => .ok Option.none

/-- Model of `MetricValue` from `src/xueqiu/api/finance.py` (lines 37-41): a metric
with optional current value and optional year-over-year delta. -/
structure MetricValue where
  value : Option ℚ
  yoy : Option ℚ
deriving DecidableEq

/-- Model of `_is_number_like` from `src/xueqiu/api/finance.py` (lines 20-34):
`None` and int/float instances count (in Python a `bool` is an `int`
instance, so booleans count too); a string counts when its stripped form
is nonempty and parses as a float; everything else does not. -/
def isNumberLike : JsonValue → Bool
  | .null => true
  | .bool _ => true
  | .num _ => true
  | .str s => !(pyStrip s == "") && (parseFloatLit s).isSome
  | .arr _ => false
  | .obj _ => false

/-- Pydantic lax coercion to `float | None` for the `MetricValue` fields:
`None` passes through, numbers stand, booleans coerce to 0/1, numeric
strings are parsed; a non-numeric value is a validation error (outer
`none`). -/
def coerceOptFloat : JsonValue → Option (Option ℚ)
  | .null => some Option.none
  | .num q => some (some q)
  | .bool b => some (some (if b then 1 else 0))
  | .str s => (parseFloatLit s).map some
  | _ => none

/-- Model of `_parse_metric_value` from `src/xueqiu/api/finance.py` (lines 44-50):
exactly a 2-element sequence with both elements number-like becomes
`MetricValue(value=elem0, yoy=elem1)` (pydantic-coerced); anything else is
`None`.  The coercion cannot fail under the number-like guard, so the
fall-through arm is unreachable. -/
def parseMetricValue (raw : JsonValue) : Option MetricValue :=
  match raw with
  | .arr [a, b] =>
    if isNumberLike a && isNumberLike b then
      match coerceOptFloat a, coerceOptFloat b with
      | some x, some y => some ⟨x, y⟩
      | _, _ => Option.none
    else Option.none
  | _ => Option.none

/-- The reserved keys skipped by `FinanceMetricPeriod._extract_metrics`
(`src/xueqiu/api/finance.py`, line 77). -/
def reservedPeriodKeys : List String := ["report_date", "report_name"]

/-- The passthrough side of `_extract_metrics` (lines 67-86): the fields
that stay in the mapping — reserved keys and every field that is not a
promotable metric pair. -/
def extractPassthrough (kvs : List (String × JsonValue)) : List (String × JsonValue) :=
  kvs.filter fun kv => reservedPeriodKeys.contains kv.1 || (parseMetricValue kv.2).isNone

/-- The promoted side of `_extract_metrics`: the `metrics` dict collecting
every non-reserved field whose value parses as a metric pair. -/
def extractPromoted (kvs : List (String × JsonValue)) : List (String × MetricValue) :=
  kvs.filterMap fun kv =>
    if reservedPeriodKeys.contains kv.1 then Option.none
    else (parseMetricValue kv.2).map fun m => (kv.1, m)

lemma pyInt_num_400016 : pyInt (pyOr (.num 400016) (.num 0)) = some 400016 := by
  decide

/-- C2: the envelope-error check raises one and the same API error type
under both conventions: a mapping with `error_code` 400016 and a nonempty
`error_description` string raises `XueqiuAPIError` with exactly that code
and description, and a mapping (without an `error_code` key) with
`success = false`, `code = 400016`, `message = "blocked"` raises
`XueqiuAPIError` with the same code 400016 and description "blocked". -/
theorem api_error_both_conventions
    (kvs kvs2 : List (String × JsonValue)) (d url url2 : String) (m m2 : Option String)
    (h1 : objLookup kvs "error_code" = some (.num 400016))
    (h2 : objLookup kvs "error_description" = some (.str d))
    (_hd : d ≠ "")
    (h3 : objLookup kvs2 "error_code" = Option.none)
    (h4 : objLookup kvs2 "success" = some (.bool false))
    (h5 : objLookup kvs2 "code" = some (.num 400016))
    (h6 : objLookup kvs2 "message" = some (.str "blocked")) :
    raiseForApiError (.obj kvs) url m = some ⟨400016, .str d, url, .obj kvs, m⟩ ∧
    raiseForApiError (.obj kvs2) url2 m2 = some ⟨400016, .str "blocked", url2, .obj kvs2, m2⟩ := by
  constructor
  · simp only [raiseForApiError, objHas, objGet, h1, h2, Option.isSome_some, Option.getD_some,
      if_true, pyInt_num_400016]
    norm_num
  · simp only [raiseForApiError, objHas, objGet, h3, h4, h5, h6, Option.isSome_some,
      Option.isSome_none, Option.getD_some, pyInt_num_400016]
    norm_num

/-- Witness for C2 at concrete envelopes. -/
theorem api_error_both_conventions_witness :
    raiseForApiError (.obj [("error_code", .num 400016), ("error_description", .str "bad req")])
        "https://stock.xueqiu.com/a" (some "GET") =
      some ⟨400016, .str "bad req", "https://stock.xueqiu.com/a",
        .obj [("error_code", .num 400016), ("error_description", .str "bad req")], some "GET"⟩ ∧
    raiseForApiError (.obj [("success", .bool false), ("code", .num 400016),
        ("message", .str "blocked")]) "https://xueqiu.com/b" (some "GET") =
      some ⟨400016, .str "blocked", "https://xueqiu.com/b",
        .obj [("success", .bool false), ("code", .num 400016), ("message", .str "blocked")],
        some "GET"⟩ :=
  api_error_both_conventions _ _ "bad req" _ _ _ _ rfl rfl (by decide) rfl rfl rfl rfl

/-- C4: a mapping with an `error_code` key whose (truthiness-defaulted)
value fails Python integer coercion makes the envelope-error check return
without raising: the malformed marker is swallowed. -/
theorem malformed_error_code_is_swallowed
    (kvs : List (String × JsonValue)) (v : JsonValue) (url : String) (m : Option String)
    (h : objLookup kvs "error_code" = some v)
    (hcoerce : pyInt (pyOr v (.num 0)) = Option.none) :
    raiseForApiError (.obj kvs) url m = Option.none := by
  simp only [raiseForApiError, objHas, objGet, h, Option.isSome_some, Option.getD_some,
    if_true, hcoerce]

/-- Witness for C4: `error_code` is the non-numeric string "E400016". -/
theorem malformed_error_code_is_swallowed_witness :
    pyInt (pyOr (.str "E400016") (.num 0)) = Option.none ∧
    raiseForApiError (.obj [("error_code", .str "E400016"), ("data", .arr [])]) "u"
      Option.none = Option.none :=
  ⟨by decide,
   malformed_error_code_is_swallowed _ (.str "E400016") "u" Option.none rfl (by decide)⟩

/-- C10: a mapping without an `error_code` key whose `success` value is
neither the boolean `True` nor the boolean `False` (a string, number,
null, ...) never raises, whatever `code` and `message` it carries: the
`is True` / `is False` identity tests both fail and the check falls
through. -/
theorem non_boolean_success_never_raises
    (kvs : List (String × JsonValue)) (v : JsonValue) (url : String) (m : Option String)
    (h1 : objLookup kvs "error_code" = Option.none)
    (h2 : objLookup kvs "success" = some v)
    (hv : ∀ b : Bool, v ≠ .bool b) :
    raiseForApiError (.obj kvs) url m = Option.none := by
  simp only [raiseForApiError, objHas, objGet, h1, h2, Option.isSome_none, Option.isSome_some,
    Option.getD_some, Bool.false_eq_true, if_false, if_true]
  match v, hv with
  | .null, _ => rfl
  | .bool b, hv => exact absurd rfl (hv b)
  | .num q, _ => rfl
  | .str s, _ => rfl
  | .arr l, _ => rfl
  | .obj o, _ => rfl

/-- Witness for C10: `success` is the string "true" next to a nonzero
`code` and a `message`. -/
theorem non_boolean_success_never_raises_witness :
    raiseForApiError (.obj [("success", .str "true"), ("code", .num 500),
      ("message", .str "blocked")]) "u" (some "GET") = Option.none :=
  non_boolean_success_never_raises _ (.str "true") "u" (some "GET") rfl rfl
    (fun b => by simp)

/-- Counterexample for C3: the mapping `{"data": 5}` carries neither an
`error_code`-style marker (`error_code`/`code`) nor a `success`-style
marker, yet the normalizer does not treat the whole mapping as the
payload — the bare `data` key already counts as an envelope marker, so the
payload becomes `5`, not `{"data": 5}`. -/
theorem envelope_no_marker_counterexample :
    validateXueqiuResponse (.obj [("data", .num 5)]) =
      some ⟨.num 5, 0, Option.none, Option.none⟩ ∧
    objLookup [("data", JsonValue.num 5)] "error_code" = Option.none ∧
    objLookup [("data", JsonValue.num 5)] "code" = Option.none ∧
    objLookup [("data", JsonValue.num 5)] "success" = Option.none ∧
    JsonValue.num 5 ≠ JsonValue.obj [("data", JsonValue.num 5)] := by
  refine ⟨rfl, rfl, rfl, rfl, by simp⟩

/-- C3 (amended): the envelope normalizer maps every decoded JSON value to
exactly one normalized envelope; a non-mapping value becomes the payload
unchanged with status code 0 and success; and a mapping carrying none of
the envelope keys `data`, `error_code`, `code`, `success` is treated
whole, as-is, as the payload with status code 0 and success (a mapping
with a bare `data` key but no error/success marker is instead read as an
envelope whose payload is its `data` field). -/
theorem envelope_normalizer_amended :
    (∀ v : JsonValue, (∀ kvs, v ≠ .obj kvs) →
      validateXueqiuResponse v = some ⟨v, 0, Option.none, Option.none⟩ ∧
      (NormalizedEnvelope.mk v 0 Option.none Option.none).is_success = true) ∧
    (∀ kvs : List (String × JsonValue),
      objLookup kvs "data" = Option.none →
      objLookup kvs "error_code" = Option.none →
      objLookup kvs "code" = Option.none →
      objLookup kvs "success" = Option.none →
      validateXueqiuResponse (.obj kvs) = some ⟨.obj kvs, 0, Option.none, Option.none⟩ ∧
      (NormalizedEnvelope.mk (.obj kvs) 0 Option.none Option.none).is_success = true) := by
  constructor
  · intro v hv
    refine ⟨?_, rfl⟩
    match v, hv with
    | .null, _ => rfl
    | .bool b, _ => rfl
    | .num q, _ => rfl
    | .str s, _ => rfl
    | .arr l, _ => rfl
    | .obj kvs, hv => exact absurd rfl (hv kvs)
  · intro kvs h1 h2 h3 h4
    refine ⟨?_, rfl⟩
    simp only [validateXueqiuResponse, wrapRawPayload, objHas, h1, h2, h3, h4,
      Option.isSome_none, Bool.or_self, Bool.false_eq_true, if_false]
    rfl

/-- Witness for C3 (amended) at a bare array and a marker-free mapping. -/
theorem envelope_normalizer_amended_witness :
    validateXueqiuResponse (.arr [.num 1]) =
      some ⟨.arr [.num 1], 0, Option.none, Option.none⟩ ∧
    validateXueqiuResponse (.obj [("foo", .num 7)]) =
      some ⟨.obj [("foo", .num 7)], 0, Option.none, Option.none⟩ :=
  ⟨(envelope_normalizer_amended.1 (.arr [.num 1]) (fun _ h => JsonValue.noConfusion h)).1,
   (envelope_normalizer_amended.2 [("foo", .num 7)] rfl rfl rfl rfl).1⟩

/-- C6: with a credential configured, the client attaches it (as `Cookie`
header or cookie jar) if and only if the request URL has no host, or its
normalized host equals the client's primary base host, or its host is
`xueqiu.com` or a subdomain of it; any other host gets neither the header
nor the jar. -/
theorem auth_host_policy
    (cookie : Option String) (jar : Option (List (String × String)))
    (baseHost urlHost : Option String)
    (hauth : (cookie.getD "") ≠ "" ∨ !(jar.getD []).isEmpty) :
    ((attachCredential cookie jar (mkAuthHosts baseHost) urlHost).1.isSome ∨
     (attachCredential cookie jar (mkAuthHosts baseHost) urlHost).2.isSome) ↔
      (pyLower (pyStrip (urlHost.getD "")) = "" ∨
       (pyLower (pyStrip (baseHost.getD "")) ≠ "" ∧
        pyLower (pyStrip (urlHost.getD "")) = pyLower (pyStrip (baseHost.getD ""))) ∨
       isXueqiuHost (pyLower (pyStrip (urlHost.getD ""))) = true) := by
  have hsend : shouldSendAuth (mkAuthHosts baseHost) urlHost = true ↔
      (pyLower (pyStrip (urlHost.getD "")) = "" ∨
       (pyLower (pyStrip (baseHost.getD "")) ≠ "" ∧
        pyLower (pyStrip (urlHost.getD "")) = pyLower (pyStrip (baseHost.getD ""))) ∨
       isXueqiuHost (pyLower (pyStrip (urlHost.getD ""))) = true) := by
    unfold shouldSendAuth mkAuthHosts
    by_cases hu : pyLower (pyStrip (urlHost.getD "")) = ""
    · simp [hu]
    · by_cases hb : pyLower (pyStrip (baseHost.getD "")) = ""
      · simp only [if_neg hu, if_pos hb, List.contains, List.elem, Bool.or_eq_true]
        constructor
        · rintro (h | h)
          · cases h
          · exact Or.inr (Or.inr h)
        · rintro (h | ⟨hb2, _⟩ | h)
          · exact absurd h hu
          · exact absurd hb hb2
          · exact Or.inr h
      · simp only [if_neg hu, if_neg hb, List.contains, List.elem, Bool.or_eq_true]
        cases h : pyLower (pyStrip (urlHost.getD "")) == pyLower (pyStrip (baseHost.getD ""))
        · simp only [beq_eq_false_iff_ne, ne_eq] at h
          simp [hu, hb, h]
        · rw [beq_iff_eq] at h
          simp [hu, hb, h]
  rw [← hsend]
  unfold attachCredential
  constructor
  · intro h
    by_contra hs
    simp only [Bool.not_eq_true] at hs
    rw [hs] at h
    simp at h
  · intro hs
    rw [hs]
    simp only [if_true]
    by_cases hc : (cookie.getD "") = ""
    · have hj : !(jar.getD []).isEmpty := by
        rcases hauth with h | h
        · exact absurd hc h
        · exact h
      simp only [hc, ne_eq, not_true_eq_false, if_false, hj, if_true, reduceIte]
      rcases jar with _ | l
      · simp at hj
      · simp
    · simp only [ne_eq, hc, not_false_eq_true, if_true, reduceIte]
      rcases cookie with _ | c
      · simp at hc
      · simp

/-- Witness for C6: a xueqiu.com request gets the credential, a
danjuanapp.com request gets neither header nor jar. -/
theorem auth_host_policy_witness :
    ((attachCredential (some "tok") Option.none (mkAuthHosts (some "stock.xueqiu.com"))
        (some "xueqiu.com")).1.isSome ∨
     (attachCredential (some "tok") Option.none (mkAuthHosts (some "stock.xueqiu.com"))
        (some "xueqiu.com")).2.isSome) ∧
    ¬((attachCredential (some "tok") Option.none (mkAuthHosts (some "stock.xueqiu.com"))
        (some "danjuanapp.com")).1.isSome ∨
      (attachCredential (some "tok") Option.none (mkAuthHosts (some "stock.xueqiu.com"))
        (some "danjuanapp.com")).2.isSome) :=
  ⟨(auth_host_policy (some "tok") Option.none (some "stock.xueqiu.com") (some "xueqiu.com")
      (Or.inl (by decide))).mpr (Or.inr (Or.inr (by decide))),
   fun h => by
    have hc := (auth_host_policy (some "tok") Option.none (some "stock.xueqiu.com")
      (some "danjuanapp.com") (Or.inl (by decide))).mp h
    revert hc
    decide⟩

lemma civilToUnix_min : civilToUnix 1 1 1 = -62135596800 := by decide

lemma civilToUnix_maxExcl : civilToUnix 10000 1 1 = 253402300800 := by decide

lemma civilToUnix_2018 : civilToUnix 2018 1 1 = 1514764800 := by decide

lemma civilToUnix_20171230 : civilToUnix 2017 12 30 = 1514592000 := by decide

lemma fromtimestampUtc_ok (ts : ℚ) (h1 : -62135596800 ≤ ts) (h2 : ts < 253402300800) :
    fromtimestampUtc ts = .ok ts := by
  unfold fromtimestampUtc
  rw [if_pos]
  constructor
  · rw [civilToUnix_min]; push_cast; linarith
  · rw [civilToUnix_maxExcl]; push_cast; linarith

/-- Counterexample for C7: the code compares the signed value, not the
magnitude — `-20000000000` has magnitude above 10,000,000,000 yet is
treated as seconds, not divided by 1000; and `1514649600` is not the Unix
time of 2018-01-01T00:00:00Z (which is `civilToUnix 2018 1 1 =
1514764800`). -/
theorem timestamp_magnitude_counterexample :
    parseDatetimeNum (-20000000000) = .ok (-20000000000) ∧
    (10000000000 : ℚ) < |(-20000000000 : ℚ)| ∧
    (-20000000000 : ℚ) / 1000 ≠ -20000000000 ∧
    parseDatetimeNum 1514649600 = .ok 1514649600 ∧
    (1514649600 : ℚ) ≠ ((civilToUnix 2018 1 1 : Int) : ℚ) := by
  refine ⟨?_, by norm_num, by norm_num, ?_, ?_⟩
  · unfold parseDatetimeNum
    rw [if_neg (by norm_num)]
    exact fromtimestampUtc_ok _ (by norm_num) (by norm_num)
  · unfold parseDatetimeNum
    rw [if_neg (by norm_num)]
    exact fromtimestampUtc_ok _ (by norm_num) (by norm_num)
  · rw [civilToUnix_2018]
    push_cast
    norm_num

/-- C7 (amended): a numeric timestamp is interpreted as Unix time, treated
as milliseconds (divided by 1000) whenever its signed value exceeds
10,000,000,000 and as seconds otherwise, materialized as a UTC instant by
`fromtimestamp`; `normalize(t) = normalize(t * 1000)` for representative
magnitudes in (10^7, 10^10], e.g. `1514649600` and `1514649600000` both
yield the UTC instant 2017-12-30T16:00:00Z. -/
theorem timestamp_heuristic_amended :
    (∀ t : ℚ, 10000000 < t → t ≤ 10000000000 →
      parseDatetimeNum t = .ok t ∧ parseDatetimeNum (t * 1000) = .ok t) ∧
    (∀ t : ℚ, ¬ (10000000000 : ℚ) < t → parseDatetimeNum t = fromtimestampUtc t) ∧
    (∀ t : ℚ, (10000000000 : ℚ) < t → parseDatetimeNum t = fromtimestampUtc (t / 1000)) ∧
    parseDatetimeNum 1514649600 = .ok (((civilToUnix 2017 12 30 : Int) : ℚ) + 16 * 3600) ∧
    parseDatetimeNum 1514649600000 = .ok (((civilToUnix 2017 12 30 : Int) : ℚ) + 16 * 3600) := by
  have hinstant : ((civilToUnix 2017 12 30 : Int) : ℚ) + 16 * 3600 = 1514649600 := by
    rw [civilToUnix_20171230]; push_cast; norm_num
  refine ⟨?_, ?_, ?_, ?_, ?_⟩
  · intro t h1 h2
    constructor
    · unfold parseDatetimeNum
      rw [if_neg (by linarith)]
      exact fromtimestampUtc_ok _ (by linarith) (by linarith)
    · unfold parseDatetimeNum
      rw [if_pos (by linarith), show t * 1000 / 1000 = t by ring]
      exact fromtimestampUtc_ok _ (by linarith) (by linarith)
  · intro t h
    unfold parseDatetimeNum
    rw [if_neg h]
  · intro t h
    unfold parseDatetimeNum
    rw [if_pos h]
  · rw [hinstant]
    unfold parseDatetimeNum
    rw [if_neg (by norm_num)]
    exact fromtimestampUtc_ok _ (by norm_num) (by norm_num)
  · rw [hinstant]
    unfold parseDatetimeNum
    rw [if_pos (by norm_num), show (1514649600000 : ℚ) / 1000 = 1514649600 by norm_num]
    exact fromtimestampUtc_ok _ (by norm_num) (by norm_num)

/-- Witness for C7 (amended) at `t = 20000000`. -/
theorem timestamp_heuristic_amended_witness :
    parseDatetimeNum 20000000 = .ok 20000000 ∧
    parseDatetimeNum (20000000 * 1000) = .ok 20000000 :=
  timestamp_heuristic_amended.1 20000000 (by norm_num) (by norm_num)

lemma parseDatetime_str (iso : String → Option PyDatetime) (s : String) :
    parseDatetime iso (.str s) =
      (if pyStrip s = "" then Except.ok Option.none
       else if pyIsAllDigits (pyStrip s) = true then
         Except.map some (parseDatetimeNum ((digitsToNat (pyStrip s) : Nat) : ℚ))
       else
         match iso (replaceZ (pyStrip s)) with
         | Option.none => Except.ok Option.none
         | some d => Except.ok (some d.utcSeconds)) := rfl

/-- Counterexample for C8: the all-digits string `"100000000000000000000"`
(10^20) parses as a number, the milliseconds heuristic divides it by 1000,
and `datetime.fromtimestamp(10^17, tz=utc)` is out of range: the call
raises instead of yielding `absent`, so the string normalizer is not
raise-free. -/
theorem parse_datetime_string_counterexample :
    parseDatetime (fun _ => Option.none) (.str "100000000000000000000") = .error () := by
  have h1 : digitsToNat (pyStrip "100000000000000000000") = 100000000000000000000 := rfl
  rw [parseDatetime_str, if_neg (by decide), if_pos (by decide), h1]
  unfold parseDatetimeNum
  rw [if_pos (by push_cast; norm_num)]
  unfold fromtimestampUtc
  rw [if_neg]
  · rfl
  · rw [civilToUnix_min, civilToUnix_maxExcl]
    push_cast
    norm_num

/-- C8 (amended): for every string input the normalizer terminates: an
all-digits string is parsed as its numeric value and handed to the numeric
branch (which raises when the instant is outside the supported datetime
range); any other string never raises — it is attempted as ISO-8601 with a
trailing Z accepted as UTC, and every unparsable string yields absent. -/
theorem parse_datetime_string_amended (iso : String → Option PyDatetime) (s : String) :
    (pyIsAllDigits (pyStrip s) = false → ∃ r, parseDatetime iso (.str s) = .ok r) ∧
    (pyIsAllDigits (pyStrip s) = true →
      parseDatetime iso (.str s) =
        (parseDatetimeNum ((digitsToNat (pyStrip s) : Nat) : ℚ)).map some) ∧
    (pyStrip s ≠ "" → pyIsAllDigits (pyStrip s) = false →
      iso (replaceZ (pyStrip s)) = Option.none →
      parseDatetime iso (.str s) = .ok Option.none) := by
  refine ⟨?_, ?_, ?_⟩
  · intro hd
    rw [parseDatetime_str]
    by_cases he : pyStrip s = ""
    · rw [if_pos he]
      exact ⟨Option.none, rfl⟩
    · rw [if_neg he, hd]
      simp only [Bool.false_eq_true, if_false]
      cases iso (replaceZ (pyStrip s)) with
      | none => exact ⟨Option.none, rfl⟩
      | some d => exact ⟨some d.utcSeconds, rfl⟩
  · intro hd
    have he : ¬ pyStrip s = "" := by
      intro h
      rw [h] at hd
      simp [pyIsAllDigits] at hd
    rw [parseDatetime_str, if_neg he, hd]
    simp
  · intro he hd hiso
    rw [parseDatetime_str, if_neg he, hd, hiso]
    simp

/-- Witness for C8 (amended): a non-digit unparsable string yields absent,
an all-digits string is parsed numerically. -/
theorem parse_datetime_string_amended_witness :
    parseDatetime (fun _ => Option.none) (.str "notadate") = .ok Option.none ∧
    parseDatetime (fun _ => Option.none) (.str " 30 ") = .ok (some 30) := by
  constructor
  · exact (parse_datetime_string_amended (fun _ => Option.none) "notadate").2.2
      (by decide) (by decide) rfl
  · have h := (parse_datetime_string_amended (fun _ => Option.none) " 30 ").2.1 (by decide)
    rw [h]
    have h30 : digitsToNat (pyStrip " 30 ") = 30 := rfl
    rw [h30]
    unfold parseDatetimeNum
    rw [if_neg (by push_cast; norm_num)]
    rw [show ((30 : Nat) : ℚ) = 30 by push_cast; norm_num]
    exact congrArg (Except.map some) (fromtimestampUtc_ok 30 (by norm_num) (by norm_num))

lemma assoc_value_unique {kvs : List (String × JsonValue)} {k : String} {v v' : JsonValue}
    (hnd : (kvs.map Prod.fst).Nodup) (h1 : (k, v) ∈ kvs) (h2 : (k, v') ∈ kvs) : v = v' := by
  induction kvs with
  | nil => cases h1
  | cons kv rest ih =>
    simp only [List.map_cons, List.nodup_cons] at hnd
    rcases List.mem_cons.mp h1 with h1 | h1 <;> rcases List.mem_cons.mp h2 with h2 | h2
    · have h := h2.trans h1.symm
      injection h with _ hv
      exact hv.symm
    · exfalso
      apply hnd.1
      rw [← h1]
      show k ∈ rest.map Prod.fst
      exact List.mem_map_of_mem Prod.fst h2
    · exfalso
      apply hnd.1
      rw [← h2]
      show k ∈ rest.map Prod.fst
      exact List.mem_map_of_mem Prod.fst h1
    · exact ih hnd.2 h1 h2

lemma coerceOptFloat_isSome {v : JsonValue} (h : isNumberLike v = true) :
    ∃ x, coerceOptFloat v = some x := by
  cases v with
  | null => exact ⟨Option.none, rfl⟩
  | bool b => exact ⟨some (if b then 1 else 0), rfl⟩
  | num q => exact ⟨some q, rfl⟩
  | str s =>
    simp only [isNumberLike, Bool.and_eq_true, Option.isSome_iff_exists] at h
    rcases h.2 with ⟨q, hq⟩
    exact ⟨some q, by simp [coerceOptFloat, hq]⟩
  | arr l => simp [isNumberLike] at h
  | obj kvs => simp [isNumberLike] at h

/-- C9: in a report-period mapping, each non-reserved field whose value is
exactly a 2-element sequence with both elements number-like (number,
cleanly float-parsable string, or absent) is promoted to a
`MetricValue` with `value` = element 0 and `yoy` = element 1 (pydantic
float coercion applied) and removed from the passthrough fields; every
field not of that shape, and the reserved fields `report_date` and
`report_name`, stay untouched in the passthrough. -/
theorem metric_pair_extraction :
    (∀ (kvs : List (String × JsonValue)) (k : String) (v : JsonValue),
      (kvs.map Prod.fst).Nodup → (k, v) ∈ kvs →
      (reservedPeriodKeys.contains k = true →
        (k, v) ∈ extractPassthrough kvs ∧ ∀ m, (k, m) ∉ extractPromoted kvs) ∧
      (reservedPeriodKeys.contains k = false → ∀ mv, parseMetricValue v = some mv →
        (k, mv) ∈ extractPromoted kvs ∧ ∀ v', (k, v') ∉ extractPassthrough kvs) ∧
      (reservedPeriodKeys.contains k = false → parseMetricValue v = Option.none →
        (k, v) ∈ extractPassthrough kvs ∧ ∀ m, (k, m) ∉ extractPromoted kvs)) ∧
    (∀ a b : JsonValue, isNumberLike a = true → isNumberLike b = true →
      ∃ x y, coerceOptFloat a = some x ∧ coerceOptFloat b = some y ∧
        parseMetricValue (.arr [a, b]) = some ⟨x, y⟩) ∧
    (∀ l : List JsonValue, l.length ≠ 2 → parseMetricValue (.arr l) = Option.none) ∧
    (∀ a b : JsonValue, ¬(isNumberLike a = true ∧ isNumberLike b = true) →
      parseMetricValue (.arr [a, b]) = Option.none) := by
  refine ⟨?_, ?_, ?_, ?_⟩
  · intro kvs k v hnd hmem
    refine ⟨?_, ?_, ?_⟩
    · intro hres
      constructor
      · exact List.mem_filter.mpr ⟨hmem, by rw [hres]; exact Bool.true_or _⟩
      · intro m hm
        rcases List.mem_filterMap.mp hm with ⟨x, hxmem, hf⟩
        by_cases hra : reservedPeriodKeys.contains x.1 = true
        · rw [if_pos hra] at hf
          cases hf
        · rw [if_neg hra] at hf
          rcases Option.map_eq_some'.mp hf with ⟨mv, _, he⟩
          injection he with he1 _
          rw [he1] at hra
          exact hra hres
    · intro hres mv hpv
      constructor
      · refine List.mem_filterMap.mpr ⟨(k, v), hmem, ?_⟩
        rw [if_neg (by rw [hres]; exact Bool.false_ne_true), hpv]
        rfl
      · intro v' hv'
        rcases List.mem_filter.mp hv' with ⟨hv'mem, hp⟩
        have hvv : v' = v := assoc_value_unique hnd hv'mem hmem
        rw [hvv] at hp
        simp only [hres, Bool.false_or, Option.isNone_iff_eq_none] at hp
        rw [hpv] at hp
        cases hp
    · intro hres hpv
      constructor
      · exact List.mem_filter.mpr ⟨hmem, by rw [hpv]; exact Bool.or_true _⟩
      · intro m hm
        rcases List.mem_filterMap.mp hm with ⟨x, hxmem, hf⟩
        by_cases hra : reservedPeriodKeys.contains x.1 = true
        · rw [if_pos hra] at hf
          cases hf
        · rw [if_neg hra] at hf
          rcases Option.map_eq_some'.mp hf with ⟨mv, hmv, he⟩
          injection he with he1 _
          have hx2 : x = (k, x.2) := by
            rw [← he1]
          have hxv : x.2 = v := assoc_value_unique hnd (hx2 ▸ hxmem) hmem
          rw [hxv, hpv] at hmv
          cases hmv
  · intro a b ha hb
    rcases coerceOptFloat_isSome ha with ⟨x, hx⟩
    rcases coerceOptFloat_isSome hb with ⟨y, hy⟩
    refine ⟨x, y, hx, hy, ?_⟩
    simp only [parseMetricValue, ha, hb, Bool.and_self, if_true, hx, hy]
  · intro l hl
    match l, hl with
    | [], _ => rfl
    | [a], _ => rfl
    | [a, b], hl => exact absurd rfl hl
    | a :: b :: c :: rest, _ => rfl
  · intro a b hab
    have hfalse : (isNumberLike a && isNumberLike b) = false := by
      cases ha : isNumberLike a <;> cases hb : isNumberLike b <;> simp_all
    simp only [parseMetricValue, hfalse, Bool.false_eq_true, if_false]

/-- Witness for C9 at a concrete report period: the metric pair
`[5, "2"]` is promoted and removed, the reserved `report_name` and the
non-pair `currency` stay in the passthrough. -/
theorem metric_pair_extraction_witness :
    ("net_profit", MetricValue.mk (some 5) (some 2)) ∈
      extractPromoted [("report_name", .str "Q1"),
        ("net_profit", .arr [.num 5, .str "2"]), ("currency", .str "CNY")] ∧
    (∀ v', ("net_profit", v') ∉ extractPassthrough [("report_name", .str "Q1"),
        ("net_profit", .arr [.num 5, .str "2"]), ("currency", .str "CNY")]) ∧
    ("report_name", JsonValue.str "Q1") ∈ extractPassthrough [("report_name", .str "Q1"),
        ("net_profit", .arr [.num 5, .str "2"]), ("currency", .str "CNY")] ∧
    ("currency", JsonValue.str "CNY") ∈ extractPassthrough [("report_name", .str "Q1"),
        ("net_profit", .arr [.num 5, .str "2"]), ("currency", .str "CNY")] := by
  have hnd : (List.map Prod.fst [("report_name", JsonValue.str "Q1"),
      ("net_profit", JsonValue.arr [.num 5, .str "2"]),
      ("currency", JsonValue.str "CNY")]).Nodup := by
    simp
  have hpair := (metric_pair_extraction.1 _ "net_profit" (.arr [.num 5, .str "2"]) hnd
    (List.mem_cons_of_mem _ (List.mem_cons_self _ _))).2.1 rfl
    (MetricValue.mk (some 5) (some 2)) (by rfl)
  have hres := (metric_pair_extraction.1 _ "report_name" (.str "Q1") hnd
    (List.mem_cons_self _ _)).1 rfl
  have hcur := (metric_pair_extraction.1 _ "currency" (.str "CNY") hnd
    (List.mem_cons_of_mem _ (List.mem_cons_of_mem _ (List.mem_cons_self _ _)))).2.2 rfl rfl
  exact ⟨hpair.1, hpair.2, hres.1, hcur.1⟩

lemma requestJsonGo_all_retryable (st : Nat → Nat) (ra : Nat → Option String)
    (bd : Nat → String) (js : Nat → Option JsonValue) (url method : String)
    (checkApi : Bool) (mr : Nat) (h : ∀ i, st i = 429 ∨ 500 ≤ st i) :
    ∀ fuel attempt, attempt + fuel = mr + 1 → attempt ≤ mr →
      requestJsonGo (mkEnv st ra bd js) url method checkApi mr attempt fuel =
        (.httpError (st mr) url method (truncBody (bd mr)),
         (List.range' attempt (mr - attempt)).map fun i => sleepDuration (ra i) i) := by
  intro fuel
  induction fuel with
  | zero =>
    intro a ha hle
    omega
  | succ f ih =>
    intro a ha hle
    have h400 : 400 ≤ st a := by rcases h a with h' | h' <;> omega
    simp only [requestJsonGo, mkEnv]
    rw [if_pos h400]
    by_cases hlt : a < mr
    · rw [if_pos ⟨h a, hlt⟩, ih (a + 1) (by omega) (by omega)]
      have hr : mr - a = (mr - (a + 1)) + 1 := by omega
      rw [hr, List.range'_succ, List.map_cons]
    · have ha' : a = mr := by omega
      rw [if_neg (fun hc => hlt hc.2)]
      subst ha'
      rw [Nat.sub_self]
      rfl

lemma requestJsonGo_all_transport (url method : String) (checkApi : Bool) (mr : Nat) :
    ∀ fuel attempt, attempt + fuel = mr + 1 → attempt ≤ mr →
      requestJsonGo (fun _ => .transportError) url method checkApi mr attempt fuel =
        (.transportError, (List.range' attempt (mr - attempt)).map backoffSeconds) := by
  intro fuel
  induction fuel with
  | zero =>
    intro a ha hle
    omega
  | succ f ih =>
    intro a ha hle
    simp only [requestJsonGo]
    by_cases hlt : a < mr
    · rw [if_neg (by omega), ih (a + 1) (by omega) (by omega)]
      have hr : mr - a = (mr - (a + 1)) + 1 := by omega
      rw [hr, List.range'_succ, List.map_cons]
    · have ha' : a = mr := by omega
      rw [if_pos (by omega)]
      subst ha'
      rw [Nat.sub_self]
      rfl

/-- C1: the driver classifies 429 and >= 500 as retryable and retries them
while attempts remain out of a budget of 1 initial attempt plus
`max_retries` retries (default 2): when every attempt fails retryably, the
loop performs exactly `max_retries` sleeps and raises `XueqiuHTTPError`
carrying the last status code, method, URL and the response body truncated
to its first 2000 characters; any other 400..499 status raises that same
error immediately on the first response, with no retry. -/
theorem retry_budget_and_fatal_4xx :
    (∀ (mr : Nat) (st : Nat → Nat) (ra : Nat → Option String) (bd : Nat → String)
        (js : Nat → Option JsonValue) (url method : String) (checkApi : Bool),
      (∀ i, st i = 429 ∨ 500 ≤ st i) →
      requestJson (mkEnv st ra bd js) url method checkApi false false mr =
        (.httpError (st mr) url method (truncBody (bd mr)),
         (List.range mr).map fun i => sleepDuration (ra i) i) ∧
      ((List.range mr).map fun i => sleepDuration (ra i) i).length = mr) ∧
    (∀ (mr s : Nat) (st : Nat → Nat) (ra : Nat → Option String) (bd : Nat → String)
        (js : Nat → Option JsonValue) (url method : String) (checkApi : Bool),
      400 ≤ s → s ≤ 499 → s ≠ 429 → st 0 = s →
      requestJson (mkEnv st ra bd js) url method checkApi false false mr =
        (.httpError s url method (truncBody (bd 0)), [])) ∧
    defaultMaxRetries = 2 := by
  refine ⟨?_, ?_, rfl⟩
  · intro mr st ra bd js url method checkApi h
    constructor
    · have hgo := requestJsonGo_all_retryable st ra bd js url method checkApi mr h
        (mr + 1) 0 (by omega) (by omega)
      show requestJsonGo (mkEnv st ra bd js) url method checkApi mr 0 (mr + 1) = _
      rw [hgo, Nat.sub_zero, List.range_eq_range']
    · rw [List.length_map, List.length_range]
  · intro mr s st ra bd js url method checkApi h1 h2 h3 h4
    show requestJsonGo (mkEnv st ra bd js) url method checkApi mr 0 (mr + 1) = _
    simp only [requestJsonGo, mkEnv]
    rw [h4, if_pos h1, if_neg]
    rintro ⟨h429 | h500, -⟩
    · exact h3 h429
    · omega

/-- Witness for C1: three straight 503s with `max_retries = 2` exhaust the
budget after two backoff sleeps; a 404 raises immediately with no sleep. -/
theorem retry_budget_and_fatal_4xx_witness :
    requestJson (mkEnv (fun _ => 503) (fun _ => Option.none) (fun _ => "err")
        (fun _ => Option.none)) "u" "GET" true false false 2 =
      (.httpError 503 "u" "GET" (some "err"), [1 / 5, 2 / 5]) ∧
    requestJson (mkEnv (fun _ => 404) (fun _ => Option.none) (fun _ => "nf")
        (fun _ => Option.none)) "u" "GET" true false false 2 =
      (.httpError 404 "u" "GET" (some "nf"), []) := by
  constructor
  · have h := (retry_budget_and_fatal_4xx.1 2 (fun _ => 503) (fun _ => Option.none)
      (fun _ => "err") (fun _ => Option.none) "u" "GET" true
      (fun _ => Or.inr (by norm_num))).1
    rw [h]
    norm_num [List.range_succ, sleepDuration, parseRetryAfterSeconds, backoffSeconds,
      min_def, truncBody]
    exact fun hc => absurd hc (by decide)
  · exact retry_budget_and_fatal_4xx.2.1 2 404 (fun _ => 404) (fun _ => Option.none)
      (fun _ => "nf") (fun _ => Option.none) "u" "GET" true (by norm_num) (by norm_num)
      (by norm_num) rfl

/-- C5: every retry sleep of the driver uses the parsed non-negative
`Retry-After` header when present and parseable and exponential backoff
`min(0.2 * 2^attempt, 4.0)` otherwise: over a run of retryable statuses
the sleep list is exactly `sleepDuration (header i) i` for attempts
`i = 0, 1, ...`; transport-error retries (which have no response header)
always use the backoff; and the two helper functions are the
header-parser-with-clamp and the capped doubling backoff. -/
theorem retry_sleep_durations :
    (∀ (mr : Nat) (st : Nat → Nat) (ra : Nat → Option String) (bd : Nat → String)
        (js : Nat → Option JsonValue) (url method : String) (checkApi : Bool),
      (∀ i, st i = 429 ∨ 500 ≤ st i) →
      (requestJson (mkEnv st ra bd js) url method checkApi false false mr).2 =
        (List.range mr).map fun i => sleepDuration (ra i) i) ∧
    (∀ (mr : Nat) (url method : String) (checkApi : Bool),
      (requestJson (fun _ => .transportError) url method checkApi false false mr).2 =
        (List.range mr).map backoffSeconds) ∧
    (∀ (ra : Option String) (a : Nat),
      sleepDuration ra a =
        match parseRetryAfterSeconds ra with
        | some s => s
        | Option.none => backoffSeconds a) ∧
    (∀ s : String, s ≠ "" →
      parseRetryAfterSeconds (some s) = (parseFloatLit s).map fun x => max 0 x) ∧
    (∀ a : Nat, backoffSeconds a = min ((1 / 5) * 2 ^ a) 4) := by
  refine ⟨?_, ?_, fun ra a => rfl, ?_, fun a => rfl⟩
  · intro mr st ra bd js url method checkApi h
    have hgo := requestJsonGo_all_retryable st ra bd js url method checkApi mr h
      (mr + 1) 0 (by omega) (by omega)
    show (requestJsonGo (mkEnv st ra bd js) url method checkApi mr 0 (mr + 1)).2 = _
    rw [hgo, Nat.sub_zero, List.range_eq_range']
  · intro mr url method checkApi
    have hgo := requestJsonGo_all_transport url method checkApi mr
      (mr + 1) 0 (by omega) (by omega)
    show (requestJsonGo (fun _ => .transportError) url method checkApi mr 0 (mr + 1)).2 = _
    rw [hgo, Nat.sub_zero, List.range_eq_range']
  · intro s hs
    simp only [parseRetryAfterSeconds, if_neg hs]

/-- Witness for C5: a parseable `Retry-After: 3` drives the first sleep,
the second retry falls back to `0.4 = 0.2 * 2`; a transport-error run
sleeps the plain backoffs. -/
theorem retry_sleep_durations_witness :
    (requestJson (mkEnv (fun _ => 429) (fun i => if i = 0 then some "3" else Option.none)
        (fun _ => "r") (fun _ => Option.none)) "u" "GET" true false false 2).2 = [3, 2 / 5] ∧
    (requestJson (fun _ => .transportError) "u" "GET" true false false 2).2 =
      [1 / 5, 2 / 5] := by
  constructor
  · have h := retry_sleep_durations.1 2 (fun _ => 429)
      (fun i => if i = 0 then some "3" else Option.none) (fun _ => "r") (fun _ => Option.none)
      "u" "GET" true (fun _ => Or.inl rfl)
    rw [h, show List.range 2 = [0, 1] from rfl]
    have hpf : parseFloatLit "3" = some 3 := rfl
    have h0 : sleepDuration (some "3") 0 = 3 := by
      simp only [sleepDuration, parseRetryAfterSeconds, hpf, Option.map_some,
        if_neg (show ¬("3" = "") from by decide)]
      norm_num
    have h1 : sleepDuration Option.none 1 = 2 / 5 := by
      simp only [sleepDuration, parseRetryAfterSeconds, backoffSeconds]
      norm_num [min_def]
    norm_num [h0, h1]
  · have h := retry_sleep_durations.2.1 2 "u" "GET" true
    rw [h]
    norm_num [List.range_succ, backoffSeconds, min_def]
